import Mathlib

/-!
Verification of the hospital-middleware core: the staff authentication flow,
the JWT-style token service and the tenant-scoped patient search engine.
The definitions below are a shallow embedding of the Go sources
(`internal/models/staff.go` and its sibling model/database files,
`internal/services/auth_service.go`, `internal/api/handlers/patient_handler.go`);
the relational store is modelled as a list of records and its filtering
contract (equality / substring containment) follows the specification of the
store interface, since the store engine itself is outside the repository.
-/

namespace Hospital

/-! ## Calendar dates -/

/-- A calendar date, as carried by the patients table's `date_of_birth` column. -/
structure Date where
  year : Nat
  month : Nat
  day : Nat
deriving DecidableEq

/-- Gregorian leap-year rule, used to validate a parsed day-of-month. -/
def isLeapYear (y : Nat) : Bool :=
  (y % 4 == 0 && y % 100 != 0) || y % 400 == 0

/-- Number of days of month `m` in year `y` (months are 1-based). -/
def daysInMonth (y m : Nat) : Nat :=
  if m = 2 then (if isLeapYear y then 29 else 28)
  else if m = 4 ∨ m = 6 ∨ m = 9 ∨ m = 11 then 30
  else 31

/-- Decimal digit test for a character. -/
def isDigitChar (c : Char) : Bool := '0' ≤ c && c ≤ '9'

/-- Numeric value of a decimal digit character. -/
def digitVal (c : Char) : Nat := c.toNat - '0'.toNat

/-- Modelled from the spec: parsing of a `date_of_birth` query value, which the
Go code delegates to the standard time library with the reference layout
`2006-01-02` (YYYY-MM-DD): exactly four digits, a dash, two digits, a dash and
two digits, with the month in `1..12` and the day within the month. Any other
shape is a parse failure, which `SearchPatients` treats as non-fatal. -/
def parseDateYMD (s : String) : Option Date :=
  match s.data with
  | [y1, y2, y3, y4, h1, m1, m2, h2, d1, d2] =>
    if isDigitChar y1 && isDigitChar y2 && isDigitChar y3 && isDigitChar y4 &&
        h1 == '-' && isDigitChar m1 && isDigitChar m2 &&
        h2 == '-' && isDigitChar d1 && isDigitChar d2 then
      let y := ((digitVal y1 * 10 + digitVal y2) * 10 + digitVal y3) * 10 + digitVal y4
      let m := digitVal m1 * 10 + digitVal m2
      let d := digitVal d1 * 10 + digitVal d2
      if 1 ≤ m && m ≤ 12 && 1 ≤ d && d ≤ daysInMonth y m then some ⟨y, m, d⟩
      else none
    else none
  | _ => none

/-! ## Substring containment (the store's `LIKE '%value%'` contract) -/

/-- Modelled from the spec: the store-side substring ("contains") match used
for the name criteria; the Go code builds `LIKE` filters padded with `%` on
both sides, and the spec fixes their contract as a substring match.
`containsSub hay needle` holds when `needle` occurs contiguously in `hay`. -/
def containsSub (hay needle : List Char) : Bool :=
  needle.isPrefixOf hay ||
    match hay with
    | [] => false
    | _ :: t => containsSub t needle

/-- String-level wrapper of `containsSub`: does `field` contain `value`? -/
def likeContains (field value : String) : Bool :=
  containsSub field.data value.data

/-! ## Patient data model and search (internal/models + database SearchPatients) -/

/-- The `Patient` record (patients table row). -/
structure Patient where
  id : Nat
  hospitalID : Nat
  patientHN : String
  firstNameTH : String
  middleNameTH : String
  lastNameTH : String
  firstNameEN : String
  middleNameEN : String
  lastNameEN : String
  dateOfBirth : Option Date
  nationalID : String
  passportID : String
  phoneNumber : String
  email : String
  gender : String
deriving DecidableEq

/-- The `PatientSearchQuery` input: every criterion field is optional
(a Go pointer that may be nil). -/
structure PatientSearchQuery where
  nationalID : Option String
  passportID : Option String
  firstNameTH : Option String
  firstNameEN : Option String
  middleNameTH : Option String
  middleNameEN : Option String
  lastNameTH : Option String
  lastNameEN : Option String
  dateOfBirth : Option String
  phoneNumber : Option String
  email : Option String
deriving DecidableEq

/-- The guard the Go code applies to every criterion before using it:
`query.X != nil && *query.X != ""`. -/
def hasValue (o : Option String) : Bool :=
  match o with
  | none => false
  | some s => s != ""

/-- One exact-match criterion (`national_id`, `passport_id`, `phone_number`,
`email`): an equality filter when the value is supplied, no constraint
otherwise. -/
def exactCond (q : Option String) (field : String) : Bool :=
  if hasValue q then field == q.getD "" else true

/-- One bilingual name component (first/middle/last), mirroring the
if/else-if chain of `SearchPatients`: with both variants supplied the two
substring filters combine with OR inside one `Where`; with one variant only
that single substring filter applies; with neither, no constraint. -/
def nameCond (qTH qEN : Option String) (fTH fEN : String) : Bool :=
  if hasValue qTH && hasValue qEN then
    likeContains fTH (qTH.getD "") || likeContains fEN (qEN.getD "")
  else if hasValue qTH then
    likeContains fTH (qTH.getD "")
  else if hasValue qEN then
    likeContains fEN (qEN.getD "")
  else true

/-- The date-of-birth criterion of `SearchPatients`: when supplied and
well-formed it is an exact-date equality filter; when supplied but malformed
the parse error is only logged and the predicate is dropped. -/
def dobCond (q : Option String) (pDob : Option Date) : Bool :=
  if hasValue q then
    match parseDateYMD (q.getD "") with
    | some d => pDob == some d
    | none => true
  else true

/-- The full row filter `SearchPatients` builds: the mandatory
`hospital_id = ?` scope followed by every supplied criterion, all combined
with AND (chained `Where` calls). -/
def patientMatches (query : PatientSearchQuery) (hospitalID : Nat) (p : Patient) : Bool :=
  p.hospitalID == hospitalID
    && exactCond query.nationalID p.nationalID
    && exactCond query.passportID p.passportID
    && nameCond query.firstNameTH query.firstNameEN p.firstNameTH p.firstNameEN
    && nameCond query.middleNameTH query.middleNameEN p.middleNameTH p.middleNameEN
    && nameCond query.lastNameTH query.lastNameEN p.lastNameTH p.lastNameEN
    && dobCond query.dateOfBirth p.dateOfBirth
    && exactCond query.phoneNumber p.phoneNumber
    && exactCond query.email p.email

/-- `SearchPatients(query, hospitalID)` over a store holding the rows `db`,
in the store's natural order. -/
def SearchPatients (db : List Patient) (query : PatientSearchQuery) (hospitalID : Nat) :
    List Patient :=
  db.filter (patientMatches query hospitalID)

/-- The all-absent query (every criterion pointer nil). -/
def emptyQuery : PatientSearchQuery :=
  ⟨none, none, none, none, none, none, none, none, none, none, none⟩

/-! ## Token service (services.Claims / token issuance inside AuthenticateStaff /
services.ValidateToken) -/

/-- The signing algorithm a token's header declares. `ValidateToken`'s key
callback accepts only the HMAC family (the code signs with HS256). -/
inductive SigningAlg where
  | HS256
  | HS384
  | HS512
  | RS256
  | algNone
deriving DecidableEq

/-- Membership in the HMAC family, the check the key callback performs
(`token.Method.(*jwt.SigningMethodHMAC)`). -/
def SigningAlg.isHMAC : SigningAlg → Bool
  | .HS256 => true
  | .HS384 => true
  | .HS512 => true
  | _ => false

/-- The JWT claims structure: identity, tenant and the registered
expires-at / issued-at / subject fields (times are numeric dates). -/
structure Claims where
  userID : Nat
  username : String
  hospitalID : Nat
  expiresAt : Nat
  issuedAt : Nat
  subject : String
deriving DecidableEq

/-- An HMAC signature, modelled abstractly as the (key, algorithm, payload)
triple it authenticates: two signatures agree exactly when key, algorithm and
signed payload all agree. -/
structure MacSig where
  key : String
  alg : SigningAlg
  payload : Claims
deriving DecidableEq

/-- Signing: produce the `MacSig` for a key, an algorithm and a payload. -/
def macSign (key : String) (alg : SigningAlg) (payload : Claims) : MacSig :=
  ⟨key, alg, payload⟩

/-- An encoded token that parses: the declared algorithm, the claims payload
and the signature. A malformed token string is `none` at the use sites. -/
structure Token where
  alg : SigningAlg
  claims : Claims
  sig : MacSig
deriving DecidableEq

/-- The claims `AuthenticateStaff` builds on success: identity fields from the
staff record, `ExpiresAt = now + expiry`, `IssuedAt = now`, `Subject` the
decimal rendering of the staff ID. -/
def newClaims (staffID : Nat) (username : String) (hospitalID : Nat)
    (now expiry : Nat) : Claims :=
  { userID := staffID, username := username, hospitalID := hospitalID,
    expiresAt := now + expiry, issuedAt := now, subject := toString staffID }

/-- Token issuance as `AuthenticateStaff` performs it:
`jwt.NewWithClaims(jwt.SigningMethodHS256, claims)` signed with the
configured secret. -/
def signToken (secret : String) (claims : Claims) : Token :=
  { alg := .HS256, claims := claims, sig := macSign secret .HS256 claims }

/-- `ValidateToken(tokenStr)` at time `now` under the configured `secret`.
A malformed string (`none`), a non-HMAC algorithm (key-callback error) and a
signature mismatch all collapse to the generic `"invalid token"` error;
an expired token (now ≥ expires-at, the JWT library's check) is the one
distinguishable failure, `"token is expired"`; otherwise the claims are
returned. The order mirrors the library: parse, key callback, signature
verification, then claims validation. -/
def ValidateToken (secret : String) (now : Nat) (tok : Option Token) :
    Except String Claims :=
  match tok with
  | none => .error "invalid token"
  | some t =>
    if !t.alg.isHMAC then .error "invalid token"
    else if t.sig != macSign secret t.alg t.claims then .error "invalid token"
    else if t.claims.expiresAt ≤ now then .error "token is expired"
    else .ok t.claims

/-! ## Staff store and authentication flow (database.FindStaffByUsername,
database.GetHospitalIDByName, services.AuthenticateStaff,
handlers.CreateStaffHandler) -/

/-- A store error: the record-not-found sentinel the code distinguishes with
`errors.Is`, or any other error with its message. -/
inductive DBErr where
  | recordNotFound
  | other (msg : String)
deriving DecidableEq

/-- The message a store error renders (`err.Error()`). -/
def DBErr.message : DBErr → String
  | .recordNotFound => "record not found"
  | .other m => m

/-- The `Staff` record (staff table row). -/
structure Staff where
  id : Nat
  username : String
  passwordHash : String
  hospitalID : Nat
  hospitalName : String
  createdAt : Nat
  updatedAt : Nat
deriving DecidableEq

/-- `FindStaffByUsername` over a store holding the rows `db`: the first row
with the given username, or the record-not-found error. -/
def FindStaffByUsername (db : List Staff) (username : String) : Except DBErr Staff :=
  match db.find? (fun s => s.username == username) with
  | some s => .ok s
  | none => .error .recordNotFound

/-- `GetHospitalIDByName`: the static tenant table. An unknown name yields a
plain formatted error (`fmt.Errorf`), not the store's record-not-found
sentinel. -/
def GetHospitalIDByName (hospitalName : String) : Except DBErr Nat :=
  if hospitalName == "Hospital A" then .ok 1
  else if hospitalName == "Hospital B" then .ok 2
  else .error (.other ("hospital not found: " ++ hospitalName))

/-- The `StaffLoginRequest` input. -/
structure StaffLoginRequest where
  username : String
  password : String
  hospital : String
deriving DecidableEq

/-- `AuthenticateStaff(loginReq)`. The password hasher is an external
collaborator, passed as the verification function `checkPasswordHash`
(plaintext, stored hash ↦ match); `secret`, `expiry` and `now` stand for the
configured JWT secret, the configured expiry duration and the current time.
The steps and every error message mirror the Go function, including the
branch on the record-not-found sentinel after the hospital lookup. -/
def AuthenticateStaff (db : List Staff) (checkPasswordHash : String → String → Bool)
    (secret : String) (expiry now : Nat) (loginReq : StaffLoginRequest) :
    Except String (Token × Staff) :=
  match FindStaffByUsername db loginReq.username with
  | .error .recordNotFound => .error "invalid username or password"
  | .error (.other m) => .error ("database error during login: " ++ m)
  | .ok staff =>
    match GetHospitalIDByName loginReq.hospital with
    | .error .recordNotFound => .error "invalid hospital specified"
    | .error (.other _) => .error "error verifying hospital"
    | .ok inputHospitalID =>
      if staff.hospitalID != inputHospitalID then
        .error "invalid hospital for this user"
      else if !checkPasswordHash loginReq.password staff.passwordHash then
        .error "invalid username or password"
      else
        let claims := newClaims staff.id staff.username staff.hospitalID now expiry
        .ok (signToken secret claims, { staff with passwordHash := "" })

/-- The `StaffCreateRequest` input. -/
structure StaffCreateRequest where
  username : String
  password : String
  hospital : String
deriving DecidableEq

/-- `CreateStaffHandler`'s core path, with the HTTP layer stripped: uniqueness
check first, then password hashing (the hasher is the external collaborator
`hashPassword`), then tenant resolution, then the insert (the store assigns
the next primary key and the timestamps), and finally the staff view with the
password hash cleared. -/
def CreateStaffHandler (db : List Staff) (hashPassword : String → String)
    (now : Nat) (req : StaffCreateRequest) : Except String Staff :=
  match FindStaffByUsername db req.username with
  | .ok _ => .error "Username already exists"
  | .error (.other _) => .error "Database error checking username"
  | .error .recordNotFound =>
    let hashedPassword := hashPassword req.password
    match GetHospitalIDByName req.hospital with
    | .error e => .error ("Invalid hospital specified: " ++ e.message)
    | .ok hospitalID =>
      let newStaff : Staff :=
        { id := db.length + 1, username := req.username,
          passwordHash := hashedPassword, hospitalID := hospitalID,
          hospitalName := req.hospital, createdAt := now, updatedAt := now }
      .ok { newStaff with passwordHash := "" }

/-! ## Characterizations of the search filter -/

/-- An exact-match criterion filters exactly the rows equal to the supplied
value, and imposes nothing when the value is absent. -/
theorem exactCond_iff (q : Option String) (f : String) :
    exactCond q f = true ↔ (hasValue q = true → f = q.getD "") := by
  unfold exactCond
  cases h : hasValue q <;> simp [h]

/-- A bilingual name component behaves as an OR of the two substring filters
when both variants are supplied, as the single substring filter when one is,
and as no constraint when neither is. -/
theorem nameCond_iff (qTH qEN : Option String) (fTH fEN : String) :
    nameCond qTH qEN fTH fEN = true ↔
      ((hasValue qTH = true → hasValue qEN = true →
          (likeContains fTH (qTH.getD "") = true ∨ likeContains fEN (qEN.getD "") = true))
        ∧ (hasValue qTH = true → hasValue qEN = false →
            likeContains fTH (qTH.getD "") = true)
        ∧ (hasValue qTH = false → hasValue qEN = true →
            likeContains fEN (qEN.getD "") = true)) := by
  unfold nameCond
  cases hTH : hasValue qTH <;> cases hEN : hasValue qEN <;> simp [hTH, hEN]

/-- The date-of-birth criterion filters by exact-date equality exactly when the
supplied value parses; otherwise (absent or malformed) it imposes nothing. -/
theorem dobCond_iff (q : Option String) (pDob : Option Date) :
    dobCond q pDob = true ↔
      (hasValue q = true → ∀ d, parseDateYMD (q.getD "") = some d → pDob = some d) := by
  unfold dobCond
  cases hq : hasValue q
  · simp [hq]
  · cases hp : parseDateYMD (q.getD "") <;> simp [hq, hp]

/-- The row filter of the search engine is the conjunction of the tenant scope
and the nine criterion groups. -/
theorem patientMatches_iff (query : PatientSearchQuery) (tid : Nat) (p : Patient) :
    patientMatches query tid p = true ↔
      (p.hospitalID = tid
        ∧ exactCond query.nationalID p.nationalID = true
        ∧ exactCond query.passportID p.passportID = true
        ∧ nameCond query.firstNameTH query.firstNameEN p.firstNameTH p.firstNameEN = true
        ∧ nameCond query.middleNameTH query.middleNameEN p.middleNameTH p.middleNameEN = true
        ∧ nameCond query.lastNameTH query.lastNameEN p.lastNameTH p.lastNameEN = true
        ∧ dobCond query.dateOfBirth p.dateOfBirth = true
        ∧ exactCond query.phoneNumber p.phoneNumber = true
        ∧ exactCond query.email p.email = true) := by
  unfold patientMatches
  simp [Bool.and_eq_true, and_assoc]

/-! ## Concrete values used by the witness theorems -/

/-- A password verifier for concrete instances: plaintext matches when it
equals the stored hash verbatim (a stand-in for the external hasher). -/
def eqCheck : String → String → Bool := fun pw h => pw == h

/-- A hasher for concrete instances, injective stand-in for the external
one-way hash. -/
def idHash : String → String := fun s => "h:" ++ s

/-- A staff row of tenant 1 used in counterexamples. -/
def cexStaff : Staff := ⟨1, "carol", "pw1", 1, "Hospital A", 0, 0⟩

/-- A staff row of tenant 2 used in witnesses. -/
def wStaff5 : Staff := ⟨3, "dave", "pw3", 2, "Hospital B", 0, 0⟩

/-- A staff row of tenant 1 used in witnesses. -/
def wStaff2 : Staff := ⟨2, "erin", "hash2", 1, "Hospital A", 0, 0⟩

/-- A staff row of tenant 1 used in witnesses. -/
def wStaff9 : Staff := ⟨1, "frank", "pw9", 1, "Hospital A", 0, 0⟩

/-- The sanitized login view of `wStaff9`. -/
def wView9 : Staff := { wStaff9 with passwordHash := "" }

/-- The sanitized creation view of a staff member inserted after `wStaff9`. -/
def wView9c : Staff :=
  { id := 2, username := "gina", passwordHash := "", hospitalID := 2,
    hospitalName := "Hospital B", createdAt := 0, updatedAt := 0 }

/-- The token issued to `wStaff9` in the sanitization witness. -/
def wTok9 : Token := signToken "s" (newClaims 1 "frank" 1 0 24)

/-- A patient row of tenant 1 used in witnesses. -/
def wPatient : Patient :=
  { id := 1, hospitalID := 1, patientHN := "HN0001",
    firstNameTH := "สมชาย", middleNameTH := "", lastNameTH := "ใจดี",
    firstNameEN := "Somchai", middleNameEN := "", lastNameEN := "Jaidii",
    dateOfBirth := some ⟨1990, 5, 15⟩, nationalID := "1234567890123",
    passportID := "", phoneNumber := "0812345678",
    email := "somchai@example.com", gender := "M" }

/-- Claims used in the token witnesses, expiring at time 4000. -/
def wClaims : Claims :=
  { userID := 7, username := "alice", hospitalID := 1, expiresAt := 4000,
    issuedAt := 0, subject := "7" }

/-- A token declaring a non-HMAC algorithm. -/
def badAlgTok : Token :=
  { alg := .RS256, claims := wClaims, sig := macSign "topsecret" .RS256 wClaims }

/-- A well-formed HS256 token signed under a different secret. -/
def badSigTok : Token :=
  { alg := .HS256, claims := wClaims, sig := macSign "othersecret" .HS256 wClaims }

/-! ## The claims -/

/-- Claim C1: every record returned by the patient search has its tenant
(hospital) identifier equal to the tenant ID the caller passed, whatever
criteria the query carries — the criteria can only narrow the tenant scope,
never widen it. -/
theorem searchPatients_tenant_scoped (db : List Patient) (query : PatientSearchQuery)
    (tenantID : Nat) (p : Patient) (hp : p ∈ SearchPatients db query tenantID) :
    p.hospitalID = tenantID := by
  have h := (List.mem_filter.mp hp).2
  exact ((patientMatches_iff query tenantID p).mp h).1

/-- Claim C1 witness: the tenant-scoping theorem applied to a concrete store,
query and result record. -/
theorem searchPatients_tenant_scoped_witness : wPatient.hospitalID = 1 :=
  searchPatients_tenant_scoped [wPatient] emptyQuery 1 wPatient (by decide)

/-- Claim C6: a record is in the search result exactly when it is a store row
of the caller's tenant satisfying every supplied criterion: for a bilingual
name component with both variants supplied, the Thai field contains the Thai
value OR the English field contains the English value; with a single variant
supplied only that substring predicate applies; exact fields compare by
equality, a parsed date of birth by exact-date equality; all groups combine
with AND and absent fields impose no constraint. -/
theorem searchPatients_criteria_semantics (db : List Patient)
    (query : PatientSearchQuery) (tenantID : Nat) (p : Patient) :
    p ∈ SearchPatients db query tenantID ↔
      (p ∈ db ∧ p.hospitalID = tenantID
        ∧ (hasValue query.nationalID = true → p.nationalID = query.nationalID.getD "")
        ∧ (hasValue query.passportID = true → p.passportID = query.passportID.getD "")
        ∧ (hasValue query.firstNameTH = true → hasValue query.firstNameEN = true →
            (likeContains p.firstNameTH (query.firstNameTH.getD "") = true ∨
              likeContains p.firstNameEN (query.firstNameEN.getD "") = true))
        ∧ (hasValue query.firstNameTH = true → hasValue query.firstNameEN = false →
            likeContains p.firstNameTH (query.firstNameTH.getD "") = true)
        ∧ (hasValue query.firstNameTH = false → hasValue query.firstNameEN = true →
            likeContains p.firstNameEN (query.firstNameEN.getD "") = true)
        ∧ (hasValue query.middleNameTH = true → hasValue query.middleNameEN = true →
            (likeContains p.middleNameTH (query.middleNameTH.getD "") = true ∨
              likeContains p.middleNameEN (query.middleNameEN.getD "") = true))
        ∧ (hasValue query.middleNameTH = true → hasValue query.middleNameEN = false →
            likeContains p.middleNameTH (query.middleNameTH.getD "") = true)
        ∧ (hasValue query.middleNameTH = false → hasValue query.middleNameEN = true →
            likeContains p.middleNameEN (query.middleNameEN.getD "") = true)
        ∧ (hasValue query.lastNameTH = true → hasValue query.lastNameEN = true →
            (likeContains p.lastNameTH (query.lastNameTH.getD "") = true ∨
              likeContains p.lastNameEN (query.lastNameEN.getD "") = true))
        ∧ (hasValue query.lastNameTH = true → hasValue query.lastNameEN = false →
            likeContains p.lastNameTH (query.lastNameTH.getD "") = true)
        ∧ (hasValue query.lastNameTH = false → hasValue query.lastNameEN = true →
            likeContains p.lastNameEN (query.lastNameEN.getD "") = true)
        ∧ (hasValue query.dateOfBirth = true →
            ∀ d, parseDateYMD (query.dateOfBirth.getD "") = some d →
              p.dateOfBirth = some d)
        ∧ (hasValue query.phoneNumber = true → p.phoneNumber = query.phoneNumber.getD "")
        ∧ (hasValue query.email = true → p.email = query.email.getD "")) := by
  rw [SearchPatients, List.mem_filter, patientMatches_iff,
    exactCond_iff, exactCond_iff, exactCond_iff, exactCond_iff,
    nameCond_iff, nameCond_iff, nameCond_iff, dobCond_iff]
  tauto

/-- Claim C7: a date-of-birth value that does not parse as a YYYY-MM-DD
calendar date never fails the search — the predicate is dropped and the
result equals that of the same query without the field — while a well-formed
value filters by exact-date equality on top of the remaining criteria. -/
theorem searchPatients_dob_semantics (db : List Patient) (query : PatientSearchQuery)
    (tenantID : Nat) :
    (∀ s, parseDateYMD s = none →
      SearchPatients db { query with dateOfBirth := some s } tenantID
        = SearchPatients db { query with dateOfBirth := none } tenantID)
    ∧ (∀ s d p, parseDateYMD s = some d →
        (p ∈ SearchPatients db { query with dateOfBirth := some s } tenantID ↔
          p ∈ SearchPatients db { query with dateOfBirth := none } tenantID
            ∧ p.dateOfBirth = some d)) := by
  constructor
  · intro s hmal
    apply List.filter_congr
    intro p _
    by_cases hs : s = ""
    · simp [patientMatches, dobCond, hasValue, hs]
    · simp [patientMatches, dobCond, hasValue, hs, hmal]
  · intro s d p hparse
    have hs : s ≠ "" := by
      intro h
      rw [h] at hparse
      rw [show parseDateYMD "" = none from rfl] at hparse
      cases hparse
    rw [SearchPatients, SearchPatients, List.mem_filter, List.mem_filter,
      patientMatches_iff, patientMatches_iff]
    simp only [dobCond_iff]
    simp [hasValue, hs, hparse, dobCond]
    tauto

/-- Claim C7 witness: a malformed date-of-birth (month 13, day 40) leaves the
concrete search result unchanged. -/
theorem searchPatients_dob_semantics_witness :
    SearchPatients [wPatient] { emptyQuery with dateOfBirth := some "2020-13-40" } 1
      = SearchPatients [wPatient] { emptyQuery with dateOfBirth := none } 1 :=
  (searchPatients_dob_semantics [wPatient] emptyQuery 1).1 "2020-13-40" (by decide)

/-- Claim C10: supplying any criterion as the empty string is the same as
omitting the field — the search result is identical, field by field. -/
theorem searchPatients_empty_is_absent (db : List Patient) (query : PatientSearchQuery)
    (tenantID : Nat) :
    (SearchPatients db { query with nationalID := some "" } tenantID
      = SearchPatients db { query with nationalID := none } tenantID)
    ∧ (SearchPatients db { query with passportID := some "" } tenantID
      = SearchPatients db { query with passportID := none } tenantID)
    ∧ (SearchPatients db { query with firstNameTH := some "" } tenantID
      = SearchPatients db { query with firstNameTH := none } tenantID)
    ∧ (SearchPatients db { query with firstNameEN := some "" } tenantID
      = SearchPatients db { query with firstNameEN := none } tenantID)
    ∧ (SearchPatients db { query with middleNameTH := some "" } tenantID
      = SearchPatients db { query with middleNameTH := none } tenantID)
    ∧ (SearchPatients db { query with middleNameEN := some "" } tenantID
      = SearchPatients db { query with middleNameEN := none } tenantID)
    ∧ (SearchPatients db { query with lastNameTH := some "" } tenantID
      = SearchPatients db { query with lastNameTH := none } tenantID)
    ∧ (SearchPatients db { query with lastNameEN := some "" } tenantID
      = SearchPatients db { query with lastNameEN := none } tenantID)
    ∧ (SearchPatients db { query with dateOfBirth := some "" } tenantID
      = SearchPatients db { query with dateOfBirth := none } tenantID)
    ∧ (SearchPatients db { query with phoneNumber := some "" } tenantID
      = SearchPatients db { query with phoneNumber := none } tenantID)
    ∧ (SearchPatients db { query with email := some "" } tenantID
      = SearchPatients db { query with email := none } tenantID) := by
  refine ⟨?_, ?_, ?_, ?_, ?_, ?_, ?_, ?_, ?_, ?_, ?_⟩ <;>
    · apply List.filter_congr
      intro p _
      simp [patientMatches, exactCond, nameCond, dobCond, hasValue]

/-- Claim C3: validating a freshly issued token under the same secret, before
the (positive) configured expiry has elapsed, succeeds and returns claims
whose identity ID, username and tenant ID equal the inputs to issuance. -/
theorem issue_validate_roundtrip (id : Nat) (user : String) (tenant : Nat)
    (secret : String) (expiry now : Nat) (h : 0 < expiry) :
    ValidateToken secret now (some (signToken secret (newClaims id user tenant now expiry)))
      = .ok (newClaims id user tenant now expiry)
    ∧ (newClaims id user tenant now expiry).userID = id
    ∧ (newClaims id user tenant now expiry).username = user
    ∧ (newClaims id user tenant now expiry).hospitalID = tenant := by
  have hlt : ¬ (now + expiry ≤ now) := by omega
  refine ⟨?_, rfl, rfl, rfl⟩
  simp [ValidateToken, signToken, macSign, SigningAlg.isHMAC, newClaims, hlt]

/-- Claim C3 witness: the round-trip theorem applied to a concrete identity,
secret and 24-hour expiry. -/
theorem issue_validate_roundtrip_witness :
    ValidateToken "topsecret" 1000
        (some (signToken "topsecret" (newClaims 7 "alice" 1 1000 86400)))
      = .ok (newClaims 7 "alice" 1 1000 86400)
    ∧ (newClaims 7 "alice" 1 1000 86400).userID = 7
    ∧ (newClaims 7 "alice" 1 1000 86400).username = "alice"
    ∧ (newClaims 7 "alice" 1 1000 86400).hospitalID = 1 :=
  issue_validate_roundtrip 7 "alice" 1 "topsecret" 86400 1000 (by decide)

/-- Claim C4: once the current time reaches a signed token's expires-at, its
validation fails with the token-expired error, and it stays failing at every
later time — the lifecycle is linear, with no transition back to valid. -/
theorem token_expiry_permanent (secret : String) (c : Claims) (n : Nat)
    (h : c.expiresAt ≤ n) :
    ValidateToken secret n (some (signToken secret c)) = .error "token is expired"
    ∧ ∀ m, n ≤ m →
        ValidateToken secret m (some (signToken secret c)) = .error "token is expired" := by
  have key : ∀ k, c.expiresAt ≤ k →
      ValidateToken secret k (some (signToken secret c)) = .error "token is expired" := by
    intro k hk
    simp [ValidateToken, signToken, macSign, SigningAlg.isHMAC, hk]
  exact ⟨key n h, fun m hm => key m (le_trans h hm)⟩

/-- Claim C4 witness: the expiry theorem applied at the exact expiry instant
of a concrete token. -/
theorem token_expiry_permanent_witness :
    ValidateToken "topsecret" 4000 (some (signToken "topsecret" wClaims))
      = .error "token is expired"
    ∧ ∀ m, 4000 ≤ m →
        ValidateToken "topsecret" m (some (signToken "topsecret" wClaims))
          = .error "token is expired" :=
  token_expiry_permanent "topsecret" wClaims 4000 (by decide)

/-- Claim C8: a malformed token, a token declaring a non-HMAC algorithm and a
token whose signature does not verify under the configured secret all fail
validation with the one generic invalid-token error — the same value in all
three cases — and only the expiry failure carries a different message. -/
theorem validateToken_generic_invalid (secret : String) (now : Nat) :
    ValidateToken secret now none = .error "invalid token"
    ∧ (∀ t : Token, t.alg.isHMAC = false →
        ValidateToken secret now (some t) = .error "invalid token")
    ∧ (∀ t : Token, t.alg.isHMAC = true → t.sig ≠ macSign secret t.alg t.claims →
        ValidateToken secret now (some t) = .error "invalid token")
    ∧ ("invalid token" ≠ "token is expired") := by
  refine ⟨rfl, ?_, ?_, by decide⟩
  · intro t ht
    simp [ValidateToken, ht]
  · intro t ht hsig
    simp [ValidateToken, ht, hsig]

/-- Claim C8 witness: the generic-invalid theorem applied to a concrete
RS256-declaring token and a concrete token signed under another secret. -/
theorem validateToken_generic_invalid_witness :
    ValidateToken "topsecret" 0 (some badAlgTok) = .error "invalid token"
    ∧ ValidateToken "topsecret" 0 (some badSigTok) = .error "invalid token" :=
  ⟨(validateToken_generic_invalid "topsecret" 0).2.1 badAlgTok rfl,
    (validateToken_generic_invalid "topsecret" 0).2.2.1 badSigTok rfl (by decide)⟩

/-- Claim C2: a login whose username is unknown and a login whose username
exists (with the tenant check passing) but whose password fails verification
both end in the same invalid-credentials error, with identical error text. -/
theorem authenticateStaff_generic_credentials (db : List Staff)
    (chk : String → String → Bool) (secret : String) (expiry now : Nat)
    (req : StaffLoginRequest) :
    (FindStaffByUsername db req.username = .error .recordNotFound →
      AuthenticateStaff db chk secret expiry now req
        = .error "invalid username or password")
    ∧ (∀ staff, FindStaffByUsername db req.username = .ok staff →
        GetHospitalIDByName req.hospital = .ok staff.hospitalID →
        chk req.password staff.passwordHash = false →
        AuthenticateStaff db chk secret expiry now req
          = .error "invalid username or password") := by
  constructor
  · intro hfind
    simp [AuthenticateStaff, hfind]
  · intro staff hfind hhosp hchk
    simp [AuthenticateStaff, hfind, hhosp, hchk]

/-- Claim C2 witness: an unknown username and a wrong password at concrete
stores produce the identical generic error. -/
theorem authenticateStaff_generic_credentials_witness :
    AuthenticateStaff [] eqCheck "secret" 24 0 ⟨"nobody", "pw", "Hospital A"⟩
      = .error "invalid username or password"
    ∧ AuthenticateStaff [wStaff2] eqCheck "secret" 24 0 ⟨"erin", "wrong", "Hospital A"⟩
      = .error "invalid username or password" :=
  ⟨(authenticateStaff_generic_credentials [] eqCheck "secret" 24 0
      ⟨"nobody", "pw", "Hospital A"⟩).1 rfl,
    (authenticateStaff_generic_credentials [wStaff2] eqCheck "secret" 24 0
      ⟨"erin", "wrong", "Hospital A"⟩).2 wStaff2 rfl rfl (by decide)⟩

/-- Claim C5 counterexample: with the staff row present, a login naming the
unconfigured hospital "Hospital C" fails with the generic verification error
"error verifying hospital", not with "invalid hospital specified" — the
resolver reports an unknown hospital as a plain formatted error, never as the
store's record-not-found sentinel, so that branch is unreachable. -/
theorem authenticateStaff_unknown_hospital_cex :
    AuthenticateStaff [cexStaff] eqCheck "secret" 24 0
        ⟨"carol", "pw1", "Hospital C"⟩
      = .error "error verifying hospital"
    ∧ "error verifying hospital" ≠ "invalid hospital specified" :=
  ⟨rfl, by decide⟩

/-- Claim C5 (amended): a login whose supplied hospital name is outside the
configured tenant set (and whose username lookup succeeds) fails with the
generic hospital-verification error "error verifying hospital" — the branch
returning "invalid hospital specified" being unreachable — and that error is
distinct from the tenant-mismatch error "invalid hospital for this user". -/
theorem authenticateStaff_unresolvable_hospital (db : List Staff)
    (chk : String → String → Bool) (secret : String) (expiry now : Nat)
    (req : StaffLoginRequest) (staff : Staff)
    (hfind : FindStaffByUsername db req.username = .ok staff)
    (hA : req.hospital ≠ "Hospital A") (hB : req.hospital ≠ "Hospital B") :
    AuthenticateStaff db chk secret expiry now req = .error "error verifying hospital"
    ∧ "error verifying hospital" ≠ "invalid hospital for this user" := by
  refine ⟨?_, by decide⟩
  simp [AuthenticateStaff, hfind, GetHospitalIDByName, hA, hB]

/-- Claim C5 witness: the amended theorem applied to a concrete staff row and
the unconfigured hospital name "Hospital Z". -/
theorem authenticateStaff_unresolvable_hospital_witness :
    AuthenticateStaff [wStaff5] eqCheck "secret" 24 0 ⟨"dave", "pw3", "Hospital Z"⟩
      = .error "error verifying hospital"
    ∧ "error verifying hospital" ≠ "invalid hospital for this user" :=
  authenticateStaff_unresolvable_hospital [wStaff5] eqCheck "secret" 24 0
    ⟨"dave", "pw3", "Hospital Z"⟩ wStaff5 rfl (by decide) (by decide)

/-- Claim C9: whenever authentication succeeds, the staff view returned next
to the token has an empty password hash, and the staff view returned by a
successful staff creation likewise has an empty password hash — the stored
hash never leaves the core. -/
theorem auth_views_sanitized (db : List Staff) (chk : String → String → Bool)
    (hash : String → String) (secret : String) (expiry now : Nat)
    (loginReq : StaffLoginRequest) (createReq : StaffCreateRequest) :
    (∀ tok staff, AuthenticateStaff db chk secret expiry now loginReq = .ok (tok, staff) →
      staff.passwordHash = "")
    ∧ (∀ staff, CreateStaffHandler db hash now createReq = .ok staff →
      staff.passwordHash = "") := by
  constructor
  · intro tok staff h
    unfold AuthenticateStaff at h
    split at h
    · simp at h
    · simp at h
    · split at h
      · simp at h
      · simp at h
      · split at h
        · simp at h
        · split at h
          · simp at h
          · simp only [Except.ok.injEq, Prod.mk.injEq] at h
            rw [← h.2]
  · intro staff h
    unfold CreateStaffHandler at h
    split at h
    · simp at h
    · simp at h
    · split at h
      · simp at h
      · simp only [Except.ok.injEq] at h
        rw [← h]

/-- Claim C9 witness: the sanitization theorem applied to a concrete
successful login and a concrete successful staff creation. -/
theorem auth_views_sanitized_witness :
    wView9.passwordHash = "" ∧ wView9c.passwordHash = "" :=
  ⟨(auth_views_sanitized [wStaff9] eqCheck idHash "s" 24 0
      ⟨"frank", "pw9", "Hospital A"⟩ ⟨"gina", "pw10", "Hospital B"⟩).1 wTok9 wView9 rfl,
    (auth_views_sanitized [wStaff9] eqCheck idHash "s" 24 0
      ⟨"frank", "pw9", "Hospital A"⟩ ⟨"gina", "pw10", "Hospital B"⟩).2 wView9c rfl⟩

end Hospital
